import Mathlib

/-!
Shallow embedding of the CloudPayments interaction client
(`base.py`, `main.py`, `schemas.py`).

The transport layer (aiohttp `ClientSession.request`) is modelled by an
oracle `target : Nat → AttemptOutcome ε ρ` giving, for each attempt index,
what `session.request` does on that attempt: raise `asyncio.TimeoutError`,
raise some other transport exception, or return a response.  Times are
rationals; the random jitter draw `random.random()` is a parameter
`u ∈ [0,1]`.  Python exceptions that the embedded code can raise are the
constructors of `PyExc`; a Python function that may raise is embedded as
an `Except PyExc`-valued function.
-/

/-- JSON values as produced by `response.json()` (Python objects:
`None`, `bool`, `int`, `str`, `dict`, `list`). -/
inductive Json where
  | null : Json
  | bool (b : Bool) : Json
  | num (n : Int) : Json
  | str (s : String) : Json
  | obj (fields : List (String × Json)) : Json
  | arr (elems : List Json) : Json
deriving Repr

/-- Python truthiness of a parsed-JSON value: `None`, `False`, `0`, `""`,
`{}` and `[]` are falsy, everything else truthy. -/
def jsonTruthy : Json → Bool
  | .null => false
  | .bool b => b
  | .num n => n != 0
  | .str s => s != ""
  | .obj fields => !fields.isEmpty
  | .arr elems => !elems.isEmpty

/-- `d.get(k)` on a Python dict parsed from JSON: the value under the first
matching key, or `None` (= `Json.null`) when the key is absent. -/
def pyDictGet (fields : List (String × Json)) (k : String) : Json :=
  match fields.find? (fun p => p.1 == k) with
  | some p => p.2
  | none => .null

/-- `d.get(k, default)` on a Python dict: the stored value when the key is
present (even when that value is `None`), the default otherwise. -/
def pyDictGetD (fields : List (String × Json)) (k : String) (d : Json) : Json :=
  match fields.find? (fun p => p.1 == k) with
  | some p => p.2
  | none => d

/-- The single-quote character, used by Python `repr` of strings. -/
def quoteChar : Char := '\x27'

mutual

/-- Python `repr` of a parsed-JSON value (`repr(None) = "None"`,
`repr('a') = "'a'"`, dicts and lists printed recursively). -/
def pyRepr : Json → String
  | .null => "None"
  | .bool true => "True"
  | .bool false => "False"
  | .num n => toString n
  | .str s => String.singleton quoteChar ++ s ++ String.singleton quoteChar
  | .obj fields => "\x7b" ++ pyReprFields fields ++ "\x7d"
  | .arr elems => "[" ++ pyReprElems elems ++ "]"

/-- Helper for `pyRepr`: the comma-separated `'key': value` entries of a dict. -/
def pyReprFields : List (String × Json) → String
  | [] => ""
  | [(k, v)] => String.singleton quoteChar ++ k ++ String.singleton quoteChar ++ ": " ++ pyRepr v
  | (k, v) :: p :: rest =>
      String.singleton quoteChar ++ k ++ String.singleton quoteChar ++ ": " ++ pyRepr v
        ++ ", " ++ pyReprFields (p :: rest)

/-- Helper for `pyRepr`: the comma-separated elements of a list. -/
def pyReprElems : List Json → String
  | [] => ""
  | [v] => pyRepr v
  | v :: w :: rest => pyRepr v ++ ", " ++ pyReprElems (w :: rest)

end

/-- Python `str()` of a parsed-JSON value, as used by the f-string
`f'{response_json.get("Message")}'`: the string itself for strings,
`repr` for every other value (`str(None) = "None"`, `str(5) = "5"`, ...). -/
def pyStr : Json → String
  | .str s => s
  | j => pyRepr j

/-- The fields of an `InteractionResponseError` instance
(`base.py`, class `InteractionResponseError`). -/
structure IRE where
  status_code : Nat
  method : String
  service : String
  message : String
  response_status : Option String
  params : Option (List (String × Json))
deriving Repr

/-- `InteractionResponseError.__init__`: stores the fields, substituting
`default_message = 'Backend unexpected response'` when the given message is
`None` or empty (Python `message or self.default_message`). -/
def mkIRE (status_code : Nat) (method service : String)
    (message : Option String) (response_status : Option String)
    (params : Option (List (String × Json))) : IRE :=
  { status_code := status_code
    method := method
    service := service
    message :=
      match message with
      | some m => if m == "" then "Backend unexpected response" else m
      | none => "Backend unexpected response"
    response_status := response_status
    params := params }

/-- The Python exception values the embedded code can raise. -/
inductive PyExc where
  /-- `InteractionResponseError`, subclass of `BaseInteractionError`. -/
  | interactionResponseError (e : IRE) : PyExc
  /-- marshmallow's `ValidationError` (the schema library's native type). -/
  | marshmallowValidationError (orig : String) : PyExc
  /-- `AttributeError`, e.g. from `None.status` or `None.get(...)`. -/
  | attributeError : PyExc
deriving Repr

/-- Whether an exception is a subtype of the taxonomy root
`BaseInteractionError` (only `InteractionResponseError` is). -/
def isInteractionError : PyExc → Bool
  | .interactionResponseError _ => true
  | _ => false

/-- What `session.request` does on one attempt: raise
`asyncio.TimeoutError`, raise some other exception, or return a response. -/
inductive AttemptOutcome (ε ρ : Type) where
  | timeout : AttemptOutcome ε ρ
  | raiseExc (e : ε) : AttemptOutcome ε ρ
  | ok (r : ρ) : AttemptOutcome ε ρ

/-- How `_make_request` terminates: `return response` (with `response`
possibly `None`) or `raise exc`. -/
inductive MakeRequestResult (ε ρ : Type) where
  | returned (r : Option ρ) : MakeRequestResult ε ρ
  | raised (e : ε) : MakeRequestResult ε ρ
deriving Repr

/-- `AbstractInteractionClient.REQUEST_RETRY_TIMEOUTS = (0.1, 0.2, 0.4)`. -/
def REQUEST_RETRY_TIMEOUTS : List ℚ := [1/10, 1/5, 2/5]

/-- The retry loop body of `_make_request` (`base.py` lines 150-167),
recursing over the remaining entries of `chain((0.0,), retry_timeouts)`
with `k` the current `retry_number`.  On `asyncio.TimeoutError` the loop
breaks with `exc = None` and `response = None`; on any other exception the
exception is recorded and the next entry (if any) is tried; on a returned
response the loop breaks with that response.  The second component counts
the attempts performed.  The delay values only govern sleeping, never the
control flow, so they are carried solely for arity fidelity. -/
def makeRequestAux {ε ρ : Type} (target : Nat → AttemptOutcome ε ρ) :
    Nat → List ℚ → MakeRequestResult ε ρ × Nat
  | _, [] => (.returned none, 0)
  | k, _ :: rest =>
    match target k with
    | .timeout => (.returned none, 1)
    | .ok r => (.returned (some r), 1)
    | .raiseExc e =>
      match rest with
      | [] => (.raised e, 1)
      | r :: rs =>
        let p := makeRequestAux target (k + 1) (r :: rs)
        (p.1, p.2 + 1)

/-- `AbstractInteractionClient._make_request`: iterates the attempt loop
over `chain((0.0,), policy)`, then `raise exc` if an exception is pending,
else `return response`.  Returns the outcome together with the number of
attempts made. -/
def makeRequest {ε ρ : Type} (policy : List ℚ)
    (target : Nat → AttemptOutcome ε ρ) : MakeRequestResult ε ρ × Nat :=
  makeRequestAux target 0 ((0 : ℚ) :: policy)

/-- `random.uniform(a, b) = a + (b - a) * random.random()`, with the draw
`random.random()` abstracted as `u`. -/
def pyUniform (a b u : ℚ) : ℚ := a + (b - a) * u

/-- The argument passed to `asyncio.sleep` before a retry
(`base.py` lines 152-153): `delay + random.uniform(-delay/2, delay/2)`
where `delay = retry_delay - response_time`. -/
def backoffSleepDuration (retry_delay response_time u : ℚ) : ℚ :=
  let delay := retry_delay - response_time
  delay + pyUniform (-(delay / 2)) (delay / 2) u

/-- An aiohttp `ClientResponse` as far as the client inspects it:
HTTP status, request method, and the parsed JSON body. -/
structure HttpResponse where
  status : Nat
  method : String
  body : Json
deriving Repr

/-- `AbstractInteractionClient._process_response` together with
`_handle_response_error`: statuses `>= 400` raise an
`InteractionResponseError` with that status, the response's method, the
client's `SERVICE`, default message and `params=None`; other statuses
return the response unchanged. -/
def processResponse (service : String) (r : HttpResponse) :
    Except PyExc HttpResponse :=
  if 400 ≤ r.status then
    .error (.interactionResponseError (mkIRE r.status r.method service none none none))
  else
    .ok r

/-- `AbstractInteractionClient.validate_data` with
`_handle_validation_error`: the schema library's `schema().load(data)` is
the external dependency, abstracted by its outcome `loadResult` (`none` =
data conforms, `some e` = it raised a `ValidationError` described by `e`).
On failure the code raises `ValidationError(message=exc)` — a fresh
marshmallow `ValidationError` wrapping the original one. -/
def validate_data (loadResult : Option String) : Except PyExc Unit :=
  match loadResult with
  | none => .ok ()
  | some e => .error (.marshmallowValidationError e)

/-- Per-instance session state.  The session handle is modelled by a
numeric identity so that constructing a session is observable; `nextId`
is the identity the next construction would use. -/
structure ClientState where
  session : Option Nat
  nextId : Nat
deriving Repr

/-- The `session` property (`base.py` lines 95-99): construct a session
via `create_session` when `_session is None`, else reuse it.  Returns the
session together with the updated state. -/
def sessionGet (st : ClientState) : Nat × ClientState :=
  match st.session with
  | some s => (s, st)
  | none => (st.nextId, ⟨some st.nextId, st.nextId + 1⟩)

/-- `AbstractInteractionClient.close` (`base.py` lines 200-203): when a
session exists, close it and set `_session = None`; otherwise do nothing. -/
def close (st : ClientState) : ClientState :=
  match st.session with
  | some _ => ⟨none, st.nextId⟩
  | none => st

/-- Python `s.lstrip('/')` on the character list of a string. -/
def lstripSlash : List Char → List Char
  | [] => []
  | c :: cs => if c = '/' then lstripSlash cs else c :: cs

/-- Python `s.lstrip('/')`. -/
def pyLstrip (s : String) : String := ⟨lstripSlash s.data⟩

/-- Python `s.rstrip('/')`: strip the trailing run of slashes. -/
def pyRstrip (s : String) : String := ⟨(lstripSlash s.data.reverse).reverse⟩

/-- Python `a or b` on strings: `b` when `a` is `None` or empty, else `a`. -/
def pyOrStr (a : Option String) (b : String) : String :=
  match a with
  | none => b
  | some s => if s == "" then b else s

/-- `AbstractInteractionClient.get_endpoint_url` (`base.py` lines
205-208): `(base_url_override or BASE_URL).rstrip('/') + '/' +
relative_url.lstrip('/')`. -/
def get_endpoint_url (BASE_URL relative_url : String)
    (base_url_override : Option String) : String :=
  pyRstrip (pyOrStr base_url_override BASE_URL) ++ "/" ++ pyLstrip relative_url

/-- The body-classification tail of `CloudPaymentsInteractionClient.charge`
(`main.py` lines 24-38), applied to the HTTP status and parsed JSON body of
the processed response.  `response_json.get('Success')` requires the body
to be a dict (otherwise Python raises `AttributeError`); a falsy `Success`
builds `err_message = f'{response_json.get("Message")}'`, appends
`f' ReasonCode: {reason_code}'` when
`response_json.get('Model', {}).get('ReasonCode')` is truthy (raising
`AttributeError` when the stored `Model` value is not a dict), and raises
an `InteractionResponseError`; a truthy `Success` returns the body. -/
def chargeClassify (respStatus : Nat) (body : Json) : Except PyExc Json :=
  match body with
  | .obj fields =>
    if jsonTruthy (pyDictGet fields "Success") then
      .ok (.obj fields)
    else
      let errMessage := pyStr (pyDictGet fields "Message")
      match pyDictGetD fields "Model" (.obj []) with
      | .obj mfields =>
        let reasonCode := pyDictGet mfields "ReasonCode"
        let errMessage :=
          if jsonTruthy reasonCode then
            errMessage ++ " ReasonCode: " ++ pyStr reasonCode
          else
            errMessage
        .error (.interactionResponseError
          (mkIRE respStatus "POST" "cloudpayments" (some errMessage) none none))
      | _ => .error .attributeError
  | _ => .error .attributeError

/-- `CloudPaymentsInteractionClient.charge` end to end: `validate_data`
(its schema-library outcome abstracted as `loadResult`), then
`post → _request → _make_request` over the retry policy against the
transport oracle `target`, then `_process_response` with
`SERVICE = 'Cloud Payments'` (on a `None` response, `response.status`
raises `AttributeError`), then `response.json()` and the `Success`
classification. -/
def charge (loadResult : Option String) (policy : List ℚ)
    (target : Nat → AttemptOutcome PyExc HttpResponse) : Except PyExc Json :=
  match validate_data loadResult with
  | .error e => .error e
  | .ok _ =>
    match (makeRequest policy target).1 with
    | .raised e => .error e
    | .returned none => .error .attributeError
    | .returned (some resp) =>
      match processResponse "Cloud Payments" resp with
      | .error e => .error e
      | .ok r => chargeClassify r.status r.body

/-! ## Helper lemmas -/

/-- When every attempt raises a (non-timeout) transport exception, the loop
consumes all remaining entries and ends holding the exception of the last
attempt, having made one attempt per entry. -/
theorem makeRequestAux_all_raise {ε ρ : Type} (target : Nat → AttemptOutcome ε ρ)
    (es : Nat → ε) (h : ∀ k, target k = .raiseExc (es k)) :
    ∀ (rest : List ℚ) (d : ℚ) (k : Nat),
      makeRequestAux target k (d :: rest) =
        (.raised (es (k + rest.length)), rest.length + 1)
  | [], _, k => by simp [makeRequestAux, h k]
  | r :: rs, _, k => by
      have ih := makeRequestAux_all_raise target es h rs r (k + 1)
      have harith : k + 1 + rs.length = k + (rs.length + 1) := by omega
      simp only [makeRequestAux, h k, ih, List.length_cons, harith]

/-! ## Claim theorems -/

/-- Claim C1 (code bug): when the first attempt raises
`asyncio.TimeoutError`, the retry loop does abort immediately (exactly one
attempt), but instead of propagating the timeout failure `_make_request`
breaks with `exc = None` and `response = None` and returns the null
response; in `charge` the subsequent `_process_response(None)` then raises
an `AttributeError` (`None.status`), not the timeout. -/
theorem makeRequest_timeout_returns_none :
    makeRequest REQUEST_RETRY_TIMEOUTS
        (fun _ => (.timeout : AttemptOutcome PyExc HttpResponse)) =
      (.returned none, 1)
    ∧ charge none REQUEST_RETRY_TIMEOUTS (fun _ => .timeout) =
      .error .attributeError := by
  constructor <;> rfl

/-- Claim C2: with a retry policy of length `N` and a target raising a
non-timeout transport exception on every attempt, `_make_request` performs
exactly `N + 1` attempts and then re-raises the exception recorded on the
last attempt (index `N`), unmodified and not wrapped into the
`InteractionError` taxonomy. -/
theorem makeRequest_exhausts_and_reraises {ε ρ : Type} (policy : List ℚ)
    (target : Nat → AttemptOutcome ε ρ) (es : Nat → ε)
    (h : ∀ k, target k = .raiseExc (es k)) :
    makeRequest policy target = (.raised (es policy.length), policy.length + 1) := by
  have := makeRequestAux_all_raise target es h policy 0 0
  simpa [makeRequest] using this

/-- Witness for C2 with the class policy `(0.1, 0.2, 0.4)` (`N = 3`) and
the exceptions indexed by attempt number: four attempts, the exception of
attempt 3 re-raised. -/
theorem makeRequest_exhausts_and_reraises_witness :
    makeRequest REQUEST_RETRY_TIMEOUTS
        (fun k => (.raiseExc k : AttemptOutcome Nat Unit)) = (.raised 3, 4) := by
  have := makeRequest_exhausts_and_reraises REQUEST_RETRY_TIMEOUTS
    (fun k => (.raiseExc k : AttemptOutcome Nat Unit)) (fun k => k) (fun _ => rfl)
  simpa [REQUEST_RETRY_TIMEOUTS] using this

/-- Claim C3: when the first attempt returns a response without raising,
`_make_request` makes exactly one attempt and returns that response —
whatever its HTTP status, which the loop never inspects. -/
theorem makeRequest_first_response_stops {ε ρ : Type} (policy : List ℚ)
    (target : Nat → AttemptOutcome ε ρ) (r : ρ) (h : target 0 = .ok r) :
    makeRequest policy target = (.returned (some r), 1) := by
  cases policy <;> simp [makeRequest, makeRequestAux, h]

/-- Witness for C3: a first attempt returning an HTTP 500 response is
still returned after exactly one attempt. -/
theorem makeRequest_first_response_stops_witness :
    makeRequest REQUEST_RETRY_TIMEOUTS
        (fun _ => (.ok ⟨500, "POST", Json.null⟩ : AttemptOutcome PyExc HttpResponse)) =
      (.returned (some ⟨500, "POST", Json.null⟩), 1) :=
  makeRequest_first_response_stops REQUEST_RETRY_TIMEOUTS _ _ rfl

/-- Counterexample for C4: on data failing schema validation (here, the
load outcome `'Missing data for required field.'`), `validate_data` raises
a marshmallow `ValidationError` — the schema library's native error type —
which is not a subtype of the `InteractionError` taxonomy root. -/
theorem validate_data_counterexample :
    validate_data (some "Missing data for required field.") =
      .error (.marshmallowValidationError "Missing data for required field.")
    ∧ isInteractionError
        (.marshmallowValidationError "Missing data for required field.") = false := by
  constructor <;> rfl

/-- Claim C4 amended: on every non-conforming input, `validate_data`
raises a fresh marshmallow `ValidationError` wrapping the original
diagnostic — the schema library's native error type does escape to
callers, and the raised exception is not `InteractionError`-compatible. -/
theorem validate_data_raises_native_error (e : String) :
    validate_data (some e) = .error (.marshmallowValidationError e)
    ∧ isInteractionError (.marshmallowValidationError e) = false := by
  constructor <;> rfl

/-- Claim C5: `_process_response` raises an `InteractionResponseError`
carrying the response's status and `params = None` for every status
`>= 400`, and returns the same response unchanged for every status
`< 400`. -/
theorem processResponse_classifies (service : String) (r : HttpResponse) :
    (400 ≤ r.status →
      processResponse service r =
        .error (.interactionResponseError (mkIRE r.status r.method service none none none))
      ∧ (mkIRE r.status r.method service none none none).status_code = r.status
      ∧ (mkIRE r.status r.method service none none none).params = none)
    ∧ (r.status < 400 → processResponse service r = .ok r) := by
  constructor
  · intro h
    refine ⟨?_, rfl, rfl⟩
    simp [processResponse, h]
  · intro h
    simp [processResponse, Nat.not_le.mpr h]

/-- Witness for C5: a 404 response is classified as an
`InteractionResponseError` with status 404 and `params = none`; a 200
response is returned unchanged. -/
theorem processResponse_classifies_witness :
    processResponse "Cloud Payments" ⟨404, "GET", Json.null⟩ =
      .error (.interactionResponseError (mkIRE 404 "GET" "Cloud Payments" none none none))
    ∧ processResponse "Cloud Payments" ⟨200, "GET", Json.null⟩ =
      .ok ⟨200, "GET", Json.null⟩ :=
  ⟨(processResponse_classifies "Cloud Payments" ⟨404, "GET", Json.null⟩).1 (by decide) |>.1,
   (processResponse_classifies "Cloud Payments" ⟨200, "GET", Json.null⟩).2 (by decide)⟩

/-- Claim C6: a second `session` access constructs nothing and returns the
same session (at most one construction until `close`); `close` resets the
state to "no session", after which the next access performs a fresh
construction; and `close` is idempotent and a no-op when no session
exists. -/
theorem session_lifecycle (st : ClientState) (n : Nat) :
    sessionGet (sessionGet st).2 = ((sessionGet st).1, (sessionGet st).2)
    ∧ (sessionGet st).2.session = some (sessionGet st).1
    ∧ (close st).session = none
    ∧ sessionGet (close st) =
        ((close st).nextId, ⟨some (close st).nextId, (close st).nextId + 1⟩)
    ∧ close ⟨none, n⟩ = ⟨none, n⟩
    ∧ close (close st) = close st := by
  obtain ⟨s, i⟩ := st
  cases s <;> simp [sessionGet, close]

/-- Claim C7: for any jitter draw `u ∈ [0,1]`, the duration handed to the
backoff sleep differs from the base `retry_delay − response_time` (the
policy entry minus the previous attempt's elapsed time) by at most half
the base's absolute value; in particular, for a positive base it lies
between 0.5 and 1.5 times the base, and for a non-positive base it stays
in the window symmetric around that base. -/
theorem backoffSleepDuration_within_jitter (retry_delay response_time u : ℚ)
    (h0 : 0 ≤ u) (h1 : u ≤ 1) :
    |backoffSleepDuration retry_delay response_time u - (retry_delay - response_time)|
      ≤ |retry_delay - response_time| / 2
    ∧ (0 < retry_delay - response_time →
        (retry_delay - response_time) / 2
            ≤ backoffSleepDuration retry_delay response_time u
        ∧ backoffSleepDuration retry_delay response_time u
            ≤ 3 * (retry_delay - response_time) / 2) := by
  set d := retry_delay - response_time with hd
  have hdur : backoffSleepDuration retry_delay response_time u - d = d * (u - 1 / 2) := by
    simp only [backoffSleepDuration, pyUniform, ← hd]
    ring
  have hu : |u - 1 / 2| ≤ 1 / 2 := by
    rw [abs_le]
    constructor <;> linarith
  have habs : |backoffSleepDuration retry_delay response_time u - d| ≤ |d| / 2 := by
    rw [hdur, abs_mul]
    calc |d| * |u - 1 / 2| ≤ |d| * (1 / 2) := by
          exact mul_le_mul_of_nonneg_left hu (abs_nonneg d)
      _ = |d| / 2 := by ring
  refine ⟨habs, fun hpos => ?_⟩
  have hdabs : |d| = d := abs_of_pos hpos
  rw [hdabs] at habs
  rw [abs_le] at habs
  constructor <;> linarith [habs.1, habs.2]

/-- Witness for C7 at `retry_delay = 0.1`, `response_time = 0.02`,
`u = 1/2`: the sleep duration is within half the base of the base. -/
theorem backoffSleepDuration_within_jitter_witness :
    |backoffSleepDuration (1 / 10) (1 / 50) (1 / 2) - (1 / 10 - 1 / 50)|
      ≤ |(1 : ℚ) / 10 - 1 / 50| / 2 :=
  (backoffSleepDuration_within_jitter (1 / 10) (1 / 50) (1 / 2)
    (by norm_num) (by norm_num)).1

/-- `lstrip('/')` leaves no leading slash. -/
theorem lstripSlash_head_ne_slash : ∀ l : List Char, (lstripSlash l).head? ≠ some '/'
  | [] => by simp [lstripSlash]
  | c :: cs => by
      by_cases h : c = '/'
      · simpa [lstripSlash, h] using lstripSlash_head_ne_slash cs
      · simp [lstripSlash, h]

/-- Claim C8: `get_endpoint_url` yields the base with trailing slashes
stripped, one `'/'`, then the path with leading slashes stripped; a
non-empty per-call override replaces the class `BASE_URL`; and the spec's
example join is produced exactly. -/
theorem get_endpoint_url_join (base rel s : String) (hs : s ≠ "") :
    (get_endpoint_url base rel none).data
        = (pyRstrip base).data ++ '/' :: (pyLstrip rel).data
    ∧ (pyRstrip base).data.getLast? ≠ some '/'
    ∧ (pyLstrip rel).data.head? ≠ some '/'
    ∧ get_endpoint_url base rel (some s) = get_endpoint_url s rel none
    ∧ get_endpoint_url "https://api.example.com/v1/" "charge" none
        = "https://api.example.com/v1/charge" := by
  refine ⟨?_, ?_, ?_, ?_, ?_⟩
  · simp [get_endpoint_url, pyOrStr, String.data_append]
  · have hdata : (pyRstrip base).data = (lstripSlash base.data.reverse).reverse := rfl
    rw [hdata, List.getLast?_reverse]
    exact lstripSlash_head_ne_slash _
  · exact lstripSlash_head_ne_slash _
  · simp [get_endpoint_url, pyOrStr, hs]
  · rfl

/-- Witness for C8: joining the CloudPayments base with `charge`, and a
non-empty override replacing the class base URL. -/
theorem get_endpoint_url_join_witness :
    get_endpoint_url "https://api.cloudpayments.ru/payments/cards/" "charge"
        (some "https://alt.example.com/") =
      get_endpoint_url "https://alt.example.com/" "charge" none :=
  (get_endpoint_url_join "https://api.cloudpayments.ru/payments/cards/" "charge"
    "https://alt.example.com/" (by decide)).2.2.2.1

/-- Claim C9: a charge whose target answers HTTP 200 with body
`{"Success": false, "Message": "declined", "Model": {"ReasonCode": 5}}`
raises an `InteractionResponseError` whose message contains both
`"declined"` and `"ReasonCode: 5"`. -/
theorem charge_declined_end_to_end :
    charge none REQUEST_RETRY_TIMEOUTS
        (fun _ => .ok ⟨200, "POST",
          .obj [("Success", .bool false), ("Message", .str "declined"),
                ("Model", .obj [("ReasonCode", .num 5)])]⟩) =
      .error (.interactionResponseError
        (mkIRE 200 "POST" "cloudpayments" (some "declined ReasonCode: 5") none none))
    ∧ (∃ a b : String,
        (mkIRE 200 "POST" "cloudpayments" (some "declined ReasonCode: 5") none none).message
          = a ++ "declined" ++ b)
    ∧ (∃ a b : String,
        (mkIRE 200 "POST" "cloudpayments" (some "declined ReasonCode: 5") none none).message
          = a ++ "ReasonCode: 5" ++ b) :=
  ⟨rfl, ⟨"", " ReasonCode: 5", rfl⟩, ⟨"declined ", "", rfl⟩⟩

/-- Counterexample for C10: the body
`{"Success": false, "Model": null}` has a falsy (absent) `Model.ReasonCode`
per the claim's reading, yet `charge` does not raise an
`InteractionResponseError`: `response_json.get('Model', {})` yields the
stored `None`, and `None.get('ReasonCode')` raises `AttributeError`. -/
theorem charge_model_null_counterexample :
    charge none REQUEST_RETRY_TIMEOUTS
        (fun _ => .ok ⟨200, "POST",
          .obj [("Success", .bool false), ("Model", .null)]⟩) =
      .error .attributeError
    ∧ isInteractionError .attributeError = false :=
  ⟨rfl, rfl⟩

/-- Claim C10 amended: for an object body, `charge`'s classification
returns the body iff `Success` is truthy (absent, null and false all
falsy); when `Success` is falsy and the stored `Model` value is an object
(or absent, defaulting to `{}`), it raises an `InteractionResponseError`,
and a falsy `Model.ReasonCode` (absent, null or 0) leaves the message as
exactly `str(Message)` with no ReasonCode suffix.  A present non-object
`Model` (e.g. null) instead raises `AttributeError`. -/
theorem chargeClassify_success_iff (fields : List (String × Json)) (s : Nat)
    (mfields : List (String × Json))
    (hm : pyDictGetD fields "Model" (.obj []) = .obj mfields) :
    (chargeClassify s (.obj fields) = .ok (.obj fields)
        ↔ jsonTruthy (pyDictGet fields "Success") = true)
    ∧ (jsonTruthy (pyDictGet fields "Success") = false →
        ∃ e, chargeClassify s (.obj fields) = .error (.interactionResponseError e))
    ∧ (jsonTruthy (pyDictGet fields "Success") = false →
        jsonTruthy (pyDictGet mfields "ReasonCode") = false →
        chargeClassify s (.obj fields) =
          .error (.interactionResponseError
            (mkIRE s "POST" "cloudpayments"
              (some (pyStr (pyDictGet fields "Message"))) none none))) := by
  refine ⟨⟨fun hok => ?_, fun hS => ?_⟩, fun hS => ?_, fun hS hR => ?_⟩
  · by_contra hS
    rw [Bool.not_eq_true] at hS
    simp only [chargeClassify, hS, Bool.false_eq_true, if_false, hm] at hok
    split at hok <;> simp at hok
  · simp [chargeClassify, hS]
  · refine ⟨?_, ?_⟩
    · exact mkIRE s "POST" "cloudpayments"
        (some (if jsonTruthy (pyDictGet mfields "ReasonCode") then
          pyStr (pyDictGet fields "Message") ++ " ReasonCode: "
            ++ pyStr (pyDictGet mfields "ReasonCode")
          else pyStr (pyDictGet fields "Message"))) none none
    · simp only [chargeClassify, hS, Bool.false_eq_true, if_false, hm]
  · simp only [chargeClassify, hS, Bool.false_eq_true, if_false, hm, hR]

/-- Witness for C10: `{"Success": false, "Message": "declined"}` (no
`Model`, so no `ReasonCode`) raises an `InteractionResponseError` whose
message is exactly `"declined"`, with no ReasonCode suffix. -/
theorem chargeClassify_success_iff_witness :
    chargeClassify 200 (.obj [("Success", Json.bool false), ("Message", Json.str "declined")]) =
      .error (.interactionResponseError
        (mkIRE 200 "POST" "cloudpayments" (some "declined") none none)) :=
  (chargeClassify_success_iff
    [("Success", Json.bool false), ("Message", Json.str "declined")] 200 [] rfl).2.2 rfl rfl
